import Mathlib

/-!
# Verification of the pennywise core: ledger, fair-share, settlement, categorization

Shallow embedding of `src/core/calculations.py` and
`src/categorization/transaction_categories.py`. Python `float` amounts are
modelled as exact rationals (`ℚ`); Python `dict[str, float]` as duplicate-free
association lists updated in insertion order; Python exceptions (`ValueError`)
as `Except String`.
-/

namespace Pennywise

/-- Python `d.get(k, 0)` on a `dict[str, float]`: the value at the first
occurrence of key `k`, else `0`. -/
def dictGet : List (String × ℚ) → String → ℚ
  | [], _ => 0
  | (k', v') :: rest, k => if k' = k then v' else dictGet rest k

/-- Python `d[k] = v`: replace the value at key `k` in place, else append
`(k, v)` at the end (dict insertion order). -/
def dictSet : List (String × ℚ) → String → ℚ → List (String × ℚ)
  | [], k, v => [(k, v)]
  | (k', v') :: rest, k, v =>
      if k' = k then (k, v) :: rest else (k', v') :: dictSet rest k v

/-- Python `d[k] = d.get(k, 0) + amount`, the accumulation idiom used by
`add_expense`. -/
def addAmount (d : List (String × ℚ)) (k : String) (amount : ℚ) :
    List (String × ℚ) :=
  dictSet d k (dictGet d k + amount)

/-- Python `sum(d.values())`. -/
def dictSum (d : List (String × ℚ)) : ℚ :=
  (d.map Prod.snd).sum

/-- `Person` dataclass from `src/core/calculations.py`: name, monthly income,
and the two per-category accumulators. -/
structure Person where
  name : String
  monthly_income : ℚ
  personal_expenses : List (String × ℚ)
  shared_expenses_paid : List (String × ℚ)
deriving DecidableEq, Repr

/-- `Contribution` dataclass: two persons, the shared pool, and a creation
timestamp (opaque here). -/
structure Contribution where
  person_a : Person
  person_b : Person
  shared_expenses : List (String × ℚ)
  date : Nat
deriving DecidableEq, Repr

/-- `Person(name, monthly_income=income)`: dataclass defaults give fresh empty
expense maps. -/
def Person.mk0 (name : String) (income : ℚ) : Person :=
  ⟨name, income, [], []⟩

/-- `Contribution(person_a, person_b)` with freshly constructed persons:
the ledger in its initial state. -/
def freshLedger (na : String) (ia : ℚ) (nb : String) (ib : ℚ) : Contribution :=
  ⟨Person.mk0 na ia, Person.mk0 nb ib, [], 0⟩

/-- `Contribution.add_expense`: resolve the payer by name (person_a first),
raising `ValueError` for an unknown name; a shared expense accumulates into
the payer's `shared_expenses_paid` and the ledger's `shared_expenses`, a
personal one only into the payer's `personal_expenses`. -/
def Contribution.add_expense (c : Contribution) (category : String)
    (amount : ℚ) (paid_by : String) (is_shared : Bool) :
    Except String Contribution :=
  if paid_by = c.person_a.name then
    if is_shared then
      .ok { c with
        person_a := { c.person_a with
          shared_expenses_paid :=
            addAmount c.person_a.shared_expenses_paid category amount },
        shared_expenses := addAmount c.shared_expenses category amount }
    else
      .ok { c with
        person_a := { c.person_a with
          personal_expenses :=
            addAmount c.person_a.personal_expenses category amount } }
  else if paid_by = c.person_b.name then
    if is_shared then
      .ok { c with
        person_b := { c.person_b with
          shared_expenses_paid :=
            addAmount c.person_b.shared_expenses_paid category amount },
        shared_expenses := addAmount c.shared_expenses category amount }
    else
      .ok { c with
        person_b := { c.person_b with
          personal_expenses :=
            addAmount c.person_b.personal_expenses category amount } }
  else
    .error ("Unknown person: " ++ paid_by)

/-- `Contribution.get_total_shared_expenses`. -/
def Contribution.get_total_shared_expenses (c : Contribution) : ℚ :=
  dictSum c.shared_expenses

/-- `Contribution.get_person_shared_paid`: sum of the named person's shared
payments, `ValueError` for an unknown name (person_a checked first). -/
def Contribution.get_person_shared_paid (c : Contribution) (name : String) :
    Except String ℚ :=
  if name = c.person_a.name then
    .ok (dictSum c.person_a.shared_expenses_paid)
  else if name = c.person_b.name then
    .ok (dictSum c.person_b.shared_expenses_paid)
  else
    .error ("Unknown person: " ++ name)

/-- One call to `add_expense` under Python exception semantics: a raised
`ValueError` leaves the ledger exactly as it was. -/
def Contribution.runOp (c : Contribution) (category : String) (amount : ℚ)
    (paid_by : String) (is_shared : Bool) : Contribution :=
  match c.add_expense category amount paid_by is_shared with
  | .ok c' => c'
  | .error _ => c

/-- An `add_expense` call record (arguments of one invocation). -/
structure ExpenseOp where
  category : String
  amount : ℚ
  paid_by : String
  is_shared : Bool
deriving DecidableEq, Repr

/-- Replay a sequence of `add_expense` calls against a ledger, each failed
call leaving the state untouched. -/
def Contribution.runOps (c : Contribution) (ops : List ExpenseOp) :
    Contribution :=
  ops.foldl (fun s op => s.runOp op.category op.amount op.paid_by op.is_shared) c

/-- `FairShareCalculator.calculate_income_ratio`: `(0.5, 0.5)` when the
combined income is zero, else `(income_a / total, 1 - income_a / total)`. -/
def FairShareCalculator.calculate_income_ratio (a b : Person) : ℚ × ℚ :=
  let total_income := a.monthly_income + b.monthly_income
  if total_income = 0 then (1/2, 1/2)
  else
    let ratio_a := a.monthly_income / total_income
    (ratio_a, 1 - ratio_a)

/-- `FairShareCalculator.calculate_fair_shares`: each ratio times the total
shared expenses. -/
def FairShareCalculator.calculate_fair_shares (c : Contribution) : ℚ × ℚ :=
  let r := FairShareCalculator.calculate_income_ratio c.person_a c.person_b
  let total_shared := c.get_total_shared_expenses
  (total_shared * r.1, total_shared * r.2)

/-- One person's block of the balance-sheet dict. -/
structure PersonReport where
  name : String
  fair_share : ℚ
  actual_paid : ℚ
  balance : ℚ
deriving DecidableEq, Repr

/-- The dict returned by `BalanceSheet.generate_monthly_balance`. -/
structure Report where
  total_shared_expenses : ℚ
  person_a : PersonReport
  person_b : PersonReport
  summary : String
deriving DecidableEq, Repr

/-- Python `f"{amount:.2f}"` on a non-negative amount: the amount rounded to
cents and printed with two decimal digits. -/
def formatAmount2 (q : ℚ) : String :=
  let cents : ℤ := round (q * 100)
  let euros := cents / 100
  let rem := (cents % 100).toNat
  toString euros ++ "." ++ (if rem < 10 then "0" else "") ++ toString rem

/-- `BalanceSheet._generate_summary`: "All expenses are perfectly balanced"
within the 0.01 epsilon, else `"<debtor> owes <creditor> <currency><amount>"`
with the debtor chosen by the sign of `balance_a`. The currency marker in the
source f-string is not U+20AC: its raw bytes decode to the three characters
U+00E2 U+201A U+00AC (a mojibake rendering of the euro sign), and the
repository's own test asserts a summary containing exactly those bytes, so
they are reproduced here verbatim. -/
def BalanceSheet.generate_summary (person_a_name person_b_name : String)
    (balance_a : ℚ) : String :=
  if |balance_a| < 1/100 then "All expenses are perfectly balanced"
  else
    let debtor := if balance_a > 0 then person_a_name else person_b_name
    let creditor := if balance_a > 0 then person_b_name else person_a_name
    let amount := |balance_a|
    debtor ++ " owes " ++ creditor ++ " â‚¬" ++
      formatAmount2 amount

/-- `BalanceSheet.generate_monthly_balance`: fair shares, actual payments via
`get_person_shared_paid` (whose `ValueError` would propagate), balance_a, and
`person_b`'s balance set to `-balance_a`. -/
def BalanceSheet.generate_monthly_balance (c : Contribution) :
    Except String Report :=
  let fs := FairShareCalculator.calculate_fair_shares c
  match c.get_person_shared_paid c.person_a.name,
        c.get_person_shared_paid c.person_b.name with
  | .ok actual_paid_a, .ok actual_paid_b =>
      let balance_a := fs.1 - actual_paid_a
      .ok { total_shared_expenses := c.get_total_shared_expenses,
            person_a := { name := c.person_a.name, fair_share := fs.1,
                          actual_paid := actual_paid_a, balance := balance_a },
            person_b := { name := c.person_b.name, fair_share := fs.2,
                          actual_paid := actual_paid_b, balance := -balance_a },
            summary := BalanceSheet.generate_summary c.person_a.name
                         c.person_b.name balance_a }
  | .error e, _ => .error e
  | _, .error e => .error e

/-! ## Categorization (`src/categorization/transaction_categories.py`) -/

/-- Python `str.upper()` (character-wise uppercasing; the keyword tables and
the claims only exercise the ASCII range, where this matches exactly). -/
def pyUpper (s : String) : String :=
  String.mk (s.data.map Char.toUpper)

/-- Boolean substring test on character lists: some suffix of `hay` starts
with `needle`. -/
def subList (needle : List Char) : List Char → Bool
  | [] => needle.isEmpty
  | c :: rest => needle.isPrefixOf (c :: rest) || subList needle rest

/-- Python substring containment `needle in hay`. -/
def strIn (needle hay : String) : Bool :=
  subList needle.data hay.data

/-- The boolean substring test agrees with `List.IsInfix`: `strIn` really is
"occurs as a substring". -/
theorem subList_iff_infix (needle hay : List Char) :
    subList needle hay = true ↔ needle <:+: hay := by
  induction hay with
  | nil =>
      simp [subList, List.isEmpty_iff, List.infix_nil]
  | cons c rest ih =>
      simp [subList, List.infix_cons_iff, List.isPrefixOf_iff_prefix, ih]

/-- A category has a match when any of its keywords, uppercased, occurs in the
(already uppercased) description — the `any(...)` test of the source loop. -/
def keywordsMatch (keywords : List String) (descUpper : String) : Bool :=
  keywords.any (fun keyword => strIn (pyUpper keyword) descUpper)

/-- The `for category, keywords in mappings.items()` loop: first category with
a keyword match, else the sentinel. -/
def catLookup (descUpper : String) : List (String × List String) → String
  | [] => "uncategorized"
  | (category, keywords) :: rest =>
      if keywordsMatch keywords descUpper then category
      else catLookup descUpper rest

/-- `categorize_transaction(description, amount, mappings)`: uppercase the
description, scan the mapping in declaration order (the `amount` argument is
accepted and ignored, as in the source). -/
def categorize_transaction (description : String) (amount : ℚ)
    (mappings : List (String × List String)) : String :=
  let descUpper := pyUpper description
  let _ := amount
  catLookup descUpper mappings

/-- `DEFAULT_CATEGORY_MAPPINGS`, in declaration order. -/
def DEFAULT_CATEGORY_MAPPINGS : List (String × List String) :=
  [("food",
    ["LIDL", "K-MARKET", "K MARKET", "S-MARKET", "ALEPA", "PRISMA",
     "CITYMARKET", "SALE", "TOKMANNI", "RUOHONJUURI"]),
   ("transport",
    ["HSL", "VR", "FINNAIR", "NORWEGIAN", "TAXI", "TAKSI",
     "UBER", "BOLT.EU", "VANTAAN TAKSI", "LÄHITAKSI"]),
   ("utilities",
    ["HELEN", "VANTAAN ENERGIA", "CARUNA", "HSY", "DNA OYJ",
     "ELISA", "TELIA", "FORTUM"]),
   ("entertainment",
    ["NETFLIX", "SPOTIFY", "HBO", "ELOKUVA", "FINNKINO", "ZYNGA",
     "STEAM", "SUPERCELL", "NINTENDO", "PLAYSTATION"]),
   ("health",
    ["APTEEKKI", "YLIOPISTON APTEEKKI", "MEHILÄINEN", "TERVEYSTALO",
     "AAVA", "HAMMASLÄÄKÄRI", "FYSIOS", "HOITO"]),
   ("rent",
    ["VUOKRA", "VUOKRANANTAJA", "SATO", "LUMO", "KOJAMO", "ASUNTO OY",
     "RENTAL", "MAANVUOKRA"])]

/-- One DataFrame row as the categorization functions see it: the description
column, the amount column, and the two columns they write. -/
structure Row where
  recipient_name : String
  amount : ℚ
  category : String
  auto_categorized : Bool
deriving DecidableEq, Repr

/-- `result_df["category"] = result_df[description_column].apply(lambda x:
categorize_transaction(str(x), 0, mappings))`. -/
def assignCategoryColumn (df : List Row)
    (mappings : List (String × List String)) : List Row :=
  df.map (fun row =>
    { row with
      category := categorize_transaction row.recipient_name 0 mappings })

/-- `result_df["auto_categorized"] = True`. -/
def assignAutoColumn (df : List Row) : List Row :=
  df.map (fun row => { row with auto_categorized := true })

/-- `categorize_transactions(df, mappings)`: on a copy of the input, assign
the category column from the description column, then set
`auto_categorized = True` on every row. -/
def categorize_transactions (df : List Row)
    (mappings : List (String × List String)) : List Row :=
  assignAutoColumn (assignCategoryColumn df mappings)

/-- `df.loc[index, "category"] = new_category` for a positional index present
in the frame. -/
def locSetCategory : List Row → Nat → String → List Row
  | [], _, _ => []
  | row :: rest, 0, cat => { row with category := cat } :: rest
  | row :: rest, n + 1, cat => row :: locSetCategory rest n cat

/-- `df.loc[index, "auto_categorized"] = value` for a positional index
present in the frame. -/
def locSetAuto : List Row → Nat → Bool → List Row
  | [], _, _ => []
  | row :: rest, 0, b => { row with auto_categorized := b } :: rest
  | row :: rest, n + 1, b => row :: locSetAuto rest n b

/-- `override_category(df, index, new_category)`: on a copy, set the category
at `index` and force `auto_categorized = False` there. -/
def override_category (df : List Row) (index : Nat) (new_category : String) :
    List Row :=
  locSetAuto (locSetCategory df index new_category) index false

/-! ### Heap model of the DataFrame copy discipline

Python DataFrames are mutable heap objects passed by reference; `df.copy()`
allocates a fresh deep copy and the subsequent column / `.loc` assignments
mutate only that copy. We model the heap as a list of DataFrames indexed by
allocation order, so aliasing and in-place mutation are explicit. -/

/-- The heap of live DataFrame objects; a reference is an index into it. -/
abbrev DFHeap := List (List Row)

/-- `categorize_transactions` at the heap level: read the argument reference,
allocate `df.copy()`, then perform both column assignments in place on the
copy; returns the mutated heap and the reference handed back to the caller. -/
def categorize_transactions_heap (heap : DFHeap) (ref : Nat)
    (mappings : List (String × List String)) : DFHeap × Nat :=
  let df := heap.getD ref []
  let r := heap.length
  let heap1 := heap ++ [df]
  let heap2 := heap1.set r (assignCategoryColumn (heap1.getD r []) mappings)
  let heap3 := heap2.set r (assignAutoColumn (heap2.getD r []))
  (heap3, r)

/-- `override_category` at the heap level: allocate `df.copy()`, then the two
`.loc` assignments mutate the copy in place. -/
def override_category_heap (heap : DFHeap) (ref : Nat) (index : Nat)
    (new_category : String) : DFHeap × Nat :=
  let df := heap.getD ref []
  let r := heap.length
  let heap1 := heap ++ [df]
  let heap2 := heap1.set r (locSetCategory (heap1.getD r []) index new_category)
  let heap3 := heap2.set r (locSetAuto (heap2.getD r []) index false)
  (heap3, r)

/-! ## Association-list dictionary lemmas -/

theorem dictGet_nil (k : String) : dictGet [] k = 0 := rfl

/-- `addAmount` on the empty dict appends a single binding. -/
theorem addAmount_nil (k : String) (v : ℚ) :
    addAmount [] k v = [(k, 0 + v)] := rfl

/-- `addAmount` hitting the head key updates it in place. -/
theorem addAmount_cons_eq (a : String) (b : ℚ) (rest : List (String × ℚ))
    (v : ℚ) :
    addAmount ((a, b) :: rest) a v = (a, b + v) :: rest := by
  simp [addAmount, dictGet, dictSet]

/-- `addAmount` skips a head binding with a different key. -/
theorem addAmount_cons_ne (a : String) (b : ℚ) (rest : List (String × ℚ))
    (k : String) (v : ℚ) (ha : ¬ a = k) :
    addAmount ((a, b) :: rest) k v = (a, b) :: addAmount rest k v := by
  simp [addAmount, dictGet, dictSet, ha]

/-- Accumulating `v` at key `k` changes the lookup at `k'` by `v` when
`k' = k` and by nothing otherwise. -/
theorem dictGet_addAmount (d : List (String × ℚ)) (k : String) (v : ℚ)
    (k' : String) :
    dictGet (addAmount d k v) k' = dictGet d k' + if k' = k then v else 0 := by
  induction d with
  | nil =>
      rw [addAmount_nil]
      by_cases h : k = k'
      · subst h ; simp [dictGet]
      · simp only [dictGet]
        rw [if_neg h, if_neg (fun hh => h hh.symm)]
        ring
  | cons p rest ih =>
      obtain ⟨a, b⟩ := p
      by_cases ha : a = k
      · subst ha
        rw [addAmount_cons_eq]
        by_cases h' : a = k'
        · subst h' ; simp [dictGet]
        · simp only [dictGet]
          rw [if_neg h', if_neg h', if_neg (fun hh => h' hh.symm)]
          ring
      · rw [addAmount_cons_ne a b rest k v ha]
        by_cases h' : a = k'
        · subst h'
          simp only [dictGet, if_true, eq_self_iff_true]
          rw [if_neg ha]
          ring
        · simp only [dictGet]
          rw [if_neg h', if_neg h', ih]

/-- Accumulating `v` at any key raises the sum of values by exactly `v`. -/
theorem dictSum_addAmount (d : List (String × ℚ)) (k : String) (v : ℚ) :
    dictSum (addAmount d k v) = dictSum d + v := by
  induction d with
  | nil => simp [addAmount_nil, dictSum]
  | cons p rest ih =>
      obtain ⟨a, b⟩ := p
      by_cases ha : a = k
      · subst ha
        rw [addAmount_cons_eq]
        simp only [dictSum, List.map, List.sum_cons]
        ring
      · rw [addAmount_cons_ne a b rest k v ha]
        simp only [dictSum, List.map, List.sum_cons] at ih ⊢
        rw [ih] ; ring

/-! ## Branch equations for `add_expense` -/

/-- A shared expense paid by person_a. -/
theorem add_expense_a_shared (c : Contribution) (category : String)
    (amount : ℚ) (paid_by : String) (ha : paid_by = c.person_a.name) :
    c.add_expense category amount paid_by true =
      .ok { c with
        person_a := { c.person_a with
          shared_expenses_paid :=
            addAmount c.person_a.shared_expenses_paid category amount },
        shared_expenses := addAmount c.shared_expenses category amount } := by
  simp [Contribution.add_expense, ha]

/-- A personal expense paid by person_a. -/
theorem add_expense_a_personal (c : Contribution) (category : String)
    (amount : ℚ) (paid_by : String) (ha : paid_by = c.person_a.name) :
    c.add_expense category amount paid_by false =
      .ok { c with
        person_a := { c.person_a with
          personal_expenses :=
            addAmount c.person_a.personal_expenses category amount } } := by
  simp [Contribution.add_expense, ha]

/-- A shared expense paid by person_b (when the name does not also match
person_a, who is checked first). -/
theorem add_expense_b_shared (c : Contribution) (category : String)
    (amount : ℚ) (paid_by : String) (ha : ¬ paid_by = c.person_a.name)
    (hb : paid_by = c.person_b.name) :
    c.add_expense category amount paid_by true =
      .ok { c with
        person_b := { c.person_b with
          shared_expenses_paid :=
            addAmount c.person_b.shared_expenses_paid category amount },
        shared_expenses := addAmount c.shared_expenses category amount } := by
  unfold Contribution.add_expense
  rw [if_neg ha, if_pos hb]
  simp

/-- A personal expense paid by person_b. -/
theorem add_expense_b_personal (c : Contribution) (category : String)
    (amount : ℚ) (paid_by : String) (ha : ¬ paid_by = c.person_a.name)
    (hb : paid_by = c.person_b.name) :
    c.add_expense category amount paid_by false =
      .ok { c with
        person_b := { c.person_b with
          personal_expenses :=
            addAmount c.person_b.personal_expenses category amount } } := by
  unfold Contribution.add_expense
  rw [if_neg ha, if_pos hb]
  simp

/-- An unknown payer name raises `ValueError` with the source's message. -/
theorem add_expense_unknown (c : Contribution) (category : String)
    (amount : ℚ) (paid_by : String) (is_shared : Bool)
    (ha : ¬ paid_by = c.person_a.name) (hb : ¬ paid_by = c.person_b.name) :
    c.add_expense category amount paid_by is_shared =
      .error ("Unknown person: " ++ paid_by) := by
  simp [Contribution.add_expense, ha, hb]

/-! ## The shared-pool invariant (C3 infrastructure) -/

/-- The ledger invariant of the spec: per category, the shared pool equals
the two persons' shared payments, and hence so do the totals. -/
def SharedInv (c : Contribution) : Prop :=
  (∀ cat, dictGet c.shared_expenses cat =
      dictGet c.person_a.shared_expenses_paid cat +
      dictGet c.person_b.shared_expenses_paid cat) ∧
  dictSum c.shared_expenses =
    dictSum c.person_a.shared_expenses_paid +
    dictSum c.person_b.shared_expenses_paid

/-- A single `add_expense` call (successful or failing) preserves the
shared-pool invariant. -/
theorem sharedInv_runOp (c : Contribution) (category : String) (amount : ℚ)
    (paid_by : String) (is_shared : Bool) (h : SharedInv c) :
    SharedInv (c.runOp category amount paid_by is_shared) := by
  obtain ⟨hpt, hsum⟩ := h
  unfold Contribution.runOp
  by_cases ha : paid_by = c.person_a.name
  · cases is_shared with
    | true =>
        rw [add_expense_a_shared c category amount paid_by ha]
        refine ⟨fun cat => ?_, ?_⟩
        · simp only [dictGet_addAmount, hpt cat] ; ring
        · simp only [Contribution.get_total_shared_expenses, dictSum_addAmount,
            hsum] ; ring
    | false =>
        rw [add_expense_a_personal c category amount paid_by ha]
        exact ⟨hpt, hsum⟩
  · by_cases hb : paid_by = c.person_b.name
    · cases is_shared with
      | true =>
          rw [add_expense_b_shared c category amount paid_by ha hb]
          refine ⟨fun cat => ?_, ?_⟩
          · simp only [dictGet_addAmount, hpt cat] ; ring
          · simp only [Contribution.get_total_shared_expenses,
              dictSum_addAmount, hsum] ; ring
      | false =>
          rw [add_expense_b_personal c category amount paid_by ha hb]
          exact ⟨hpt, hsum⟩
    · rw [add_expense_unknown c category amount paid_by is_shared ha hb]
      exact ⟨hpt, hsum⟩

/-- The invariant is preserved by any sequence of `add_expense` calls. -/
theorem sharedInv_runOps (ops : List ExpenseOp) :
    ∀ c : Contribution, SharedInv c → SharedInv (c.runOps ops) := by
  induction ops with
  | nil => intro c h ; exact h
  | cons op rest ih =>
      intro c h
      exact ih _ (sharedInv_runOp c op.category op.amount op.paid_by
        op.is_shared h)

/-- A fresh ledger (all maps empty) satisfies the invariant. -/
theorem sharedInv_fresh (na : String) (ia : ℚ) (nb : String) (ib : ℚ) :
    SharedInv (freshLedger na ia nb ib) := by
  constructor
  · intro cat ; simp [freshLedger, Person.mk0, dictGet]
  · simp [freshLedger, Person.mk0, dictSum]

/-! ## Claim theorems -/

/-- C1: every generated settlement report sets `balance_a` to
`fair_share_a - actual_paid_a` and `balance_b` to the exact negation of
`balance_a`, so `balance_a + balance_b = 0` exactly. -/
theorem settlement_zero_sum (c : Contribution) :
    ∃ r : Report, BalanceSheet.generate_monthly_balance c = .ok r ∧
      r.person_a.balance = r.person_a.fair_share - r.person_a.actual_paid ∧
      r.person_b.balance = -r.person_a.balance ∧
      r.person_a.balance + r.person_b.balance = 0 := by
  have hA : c.get_person_shared_paid c.person_a.name =
      .ok (dictSum c.person_a.shared_expenses_paid) := by
    simp [Contribution.get_person_shared_paid]
  by_cases hb : c.person_b.name = c.person_a.name
  · have hgen : BalanceSheet.generate_monthly_balance c = .ok
        ⟨c.get_total_shared_expenses,
         ⟨c.person_a.name, (FairShareCalculator.calculate_fair_shares c).1,
          dictSum c.person_a.shared_expenses_paid,
          (FairShareCalculator.calculate_fair_shares c).1 -
            dictSum c.person_a.shared_expenses_paid⟩,
         ⟨c.person_b.name, (FairShareCalculator.calculate_fair_shares c).2,
          dictSum c.person_a.shared_expenses_paid,
          -((FairShareCalculator.calculate_fair_shares c).1 -
            dictSum c.person_a.shared_expenses_paid)⟩,
         BalanceSheet.generate_summary c.person_a.name c.person_b.name
           ((FairShareCalculator.calculate_fair_shares c).1 -
             dictSum c.person_a.shared_expenses_paid)⟩ := by
      have hB : c.get_person_shared_paid c.person_b.name =
          .ok (dictSum c.person_a.shared_expenses_paid) := by
        simp [Contribution.get_person_shared_paid, hb]
      unfold BalanceSheet.generate_monthly_balance
      rw [hA, hB]
    exact ⟨_, hgen, rfl, rfl, by ring⟩
  · have hgen : BalanceSheet.generate_monthly_balance c = .ok
        ⟨c.get_total_shared_expenses,
         ⟨c.person_a.name, (FairShareCalculator.calculate_fair_shares c).1,
          dictSum c.person_a.shared_expenses_paid,
          (FairShareCalculator.calculate_fair_shares c).1 -
            dictSum c.person_a.shared_expenses_paid⟩,
         ⟨c.person_b.name, (FairShareCalculator.calculate_fair_shares c).2,
          dictSum c.person_b.shared_expenses_paid,
          -((FairShareCalculator.calculate_fair_shares c).1 -
            dictSum c.person_a.shared_expenses_paid)⟩,
         BalanceSheet.generate_summary c.person_a.name c.person_b.name
           ((FairShareCalculator.calculate_fair_shares c).1 -
             dictSum c.person_a.shared_expenses_paid)⟩ := by
      have hB : c.get_person_shared_paid c.person_b.name =
          .ok (dictSum c.person_b.shared_expenses_paid) := by
        simp [Contribution.get_person_shared_paid, hb]
      unfold BalanceSheet.generate_monthly_balance
      rw [hA, hB]
    exact ⟨_, hgen, rfl, rfl, by ring⟩

/-- C3: from a freshly constructed two-person ledger, after any sequence of
`add_expense` calls, each category's shared pool equals the sum of the two
persons' shared payments for it, and the total shared expenses equal the sum
of both persons' shared payments over all categories. -/
theorem shared_pool_invariant (na : String) (ia : ℚ) (nb : String) (ib : ℚ)
    (ops : List ExpenseOp) :
    (∀ cat,
      dictGet ((freshLedger na ia nb ib).runOps ops).shared_expenses cat =
        dictGet
            ((freshLedger na ia nb ib).runOps ops).person_a.shared_expenses_paid
            cat +
          dictGet
            ((freshLedger na ia nb ib).runOps ops).person_b.shared_expenses_paid
            cat) ∧
    ((freshLedger na ia nb ib).runOps ops).get_total_shared_expenses =
      dictSum
          ((freshLedger na ia nb ib).runOps ops).person_a.shared_expenses_paid +
        dictSum
          ((freshLedger na ia nb ib).runOps ops).person_b.shared_expenses_paid :=
  have h := sharedInv_runOps ops _ (sharedInv_fresh na ia nb ib)
  ⟨h.1, h.2⟩

/-- C4: `add_expense` and `get_person_shared_paid` fail (with the
unknown-person `ValueError`) exactly when the supplied name matches neither
registered person, and a failing `add_expense` call leaves the ledger
completely unmodified. -/
theorem unknown_person_exact_and_atomic (c : Contribution) (category : String)
    (amount : ℚ) (paid_by : String) (is_shared : Bool) :
    ((∃ e, c.add_expense category amount paid_by is_shared = .error e) ↔
      (paid_by ≠ c.person_a.name ∧ paid_by ≠ c.person_b.name)) ∧
    ((∃ e, c.get_person_shared_paid paid_by = .error e) ↔
      (paid_by ≠ c.person_a.name ∧ paid_by ≠ c.person_b.name)) ∧
    (paid_by ≠ c.person_a.name → paid_by ≠ c.person_b.name →
      c.runOp category amount paid_by is_shared = c) := by
  refine ⟨?_, ?_, ?_⟩
  · constructor
    · rintro ⟨e, he⟩
      by_cases ha : paid_by = c.person_a.name
      · cases is_shared with
        | true => rw [add_expense_a_shared c category amount paid_by ha] at he
                  exact absurd he (by simp)
        | false => rw [add_expense_a_personal c category amount paid_by ha] at he
                   exact absurd he (by simp)
      · by_cases hb : paid_by = c.person_b.name
        · cases is_shared with
          | true => rw [add_expense_b_shared c category amount paid_by ha hb] at he
                    exact absurd he (by simp)
          | false => rw [add_expense_b_personal c category amount paid_by ha hb] at he
                     exact absurd he (by simp)
        · exact ⟨ha, hb⟩
    · rintro ⟨ha, hb⟩
      exact ⟨_, add_expense_unknown c category amount paid_by is_shared ha hb⟩
  · constructor
    · rintro ⟨e, he⟩
      unfold Contribution.get_person_shared_paid at he
      by_cases ha : paid_by = c.person_a.name
      · rw [if_pos ha] at he ; exact absurd he (by simp)
      · by_cases hb : paid_by = c.person_b.name
        · rw [if_neg ha, if_pos hb] at he ; exact absurd he (by simp)
        · exact ⟨ha, hb⟩
    · rintro ⟨ha, hb⟩
      refine ⟨"Unknown person: " ++ paid_by, ?_⟩
      unfold Contribution.get_person_shared_paid
      rw [if_neg ha, if_neg hb]
  · intro ha hb
    unfold Contribution.runOp
    rw [add_expense_unknown c category amount paid_by is_shared ha hb]

/-- C4 witness: an unregistered payer name fails on a concrete ledger and
leaves it untouched. -/
theorem unknown_person_exact_and_atomic_witness :
    "Charlie" ≠ (freshLedger "Alice" 3000 "Bob" 2000).person_a.name ∧
    "Charlie" ≠ (freshLedger "Alice" 3000 "Bob" 2000).person_b.name ∧
    (freshLedger "Alice" 3000 "Bob" 2000).runOp "food" 100 "Charlie" true =
      freshLedger "Alice" 3000 "Bob" 2000 :=
  ⟨by decide, by decide,
    (unknown_person_exact_and_atomic (freshLedger "Alice" 3000 "Bob" 2000)
      "food" 100 "Charlie" true).2.2 (by decide) (by decide)⟩

/-- C5: with nonnegative incomes, `calculate_income_ratio` returns
`(0.5, 0.5)` exactly when the combined income is zero, otherwise
`(income_a / total, 1 - income_a / total)`, and in all cases the two
components sum to exactly 1. -/
theorem income_ratio_policy (a b : Person)
    (_hA : 0 ≤ a.monthly_income) (_hB : 0 ≤ b.monthly_income) :
    (a.monthly_income + b.monthly_income = 0 →
      FairShareCalculator.calculate_income_ratio a b = (1/2, 1/2)) ∧
    (a.monthly_income + b.monthly_income ≠ 0 →
      FairShareCalculator.calculate_income_ratio a b =
        (a.monthly_income / (a.monthly_income + b.monthly_income),
         1 - a.monthly_income / (a.monthly_income + b.monthly_income))) ∧
    (FairShareCalculator.calculate_income_ratio a b).1 +
      (FairShareCalculator.calculate_income_ratio a b).2 = 1 := by
  unfold FairShareCalculator.calculate_income_ratio
  by_cases h : a.monthly_income + b.monthly_income = 0
  · simp only [h, if_pos rfl]
    refine ⟨fun _ => rfl, fun hc => absurd rfl hc, by norm_num⟩
  · rw [if_neg h]
    refine ⟨fun hc => absurd hc h, fun _ => rfl, by ring⟩

/-- C5 witness: at incomes 3000 and 2000 the hypotheses hold and the ratio
components sum to 1. -/
theorem income_ratio_policy_witness :
    (0:ℚ) ≤ (Person.mk0 "Alice" 3000).monthly_income ∧
    (0:ℚ) ≤ (Person.mk0 "Bob" 2000).monthly_income ∧
    (FairShareCalculator.calculate_income_ratio (Person.mk0 "Alice" 3000)
        (Person.mk0 "Bob" 2000)).1 +
      (FairShareCalculator.calculate_income_ratio (Person.mk0 "Alice" 3000)
        (Person.mk0 "Bob" 2000)).2 = 1 :=
  ⟨by norm_num [Person.mk0], by norm_num [Person.mk0],
    (income_ratio_policy (Person.mk0 "Alice" 3000) (Person.mk0 "Bob" 2000)
      (by norm_num [Person.mk0]) (by norm_num [Person.mk0])).2.2⟩

/-! ## Classification lemmas (C2 infrastructure) -/

/-- The boolean keyword test is exactly "some keyword, uppercased, occurs as
a substring". -/
theorem keywordsMatch_iff (kws : List String) (dU : String) :
    keywordsMatch kws dU = true ↔
      ∃ kw ∈ kws, (pyUpper kw).data <:+: dU.data := by
  simp [keywordsMatch, strIn, List.any_eq_true, subList_iff_infix]

/-- Negative form: no keyword of the list matches. -/
theorem keywordsMatch_eq_false_iff (kws : List String) (dU : String) :
    keywordsMatch kws dU = false ↔
      ∀ kw ∈ kws, ¬ (pyUpper kw).data <:+: dU.data := by
  rw [← Bool.not_eq_true, keywordsMatch_iff]
  simp

/-- The scan returns the category at position `i` when it matches and no
earlier category does. -/
theorem catLookup_first (dU : String) :
    ∀ (mappings : List (String × List String)) (i : ℕ) (cat : String)
      (kws : List String),
      mappings.get? i = some (cat, kws) →
      keywordsMatch kws dU = true →
      (∀ j, j < i → ∀ cat' kws', mappings.get? j = some (cat', kws') →
        keywordsMatch kws' dU = false) →
      catLookup dU mappings = cat := by
  intro mappings
  induction mappings with
  | nil => intro i cat kws h ; simp at h
  | cons p rest ih =>
      obtain ⟨c0, k0⟩ := p
      intro i cat kws hget hmatch hearlier
      cases i with
      | zero =>
          simp only [List.get?] at hget
          injection hget with hpair
          injection hpair with hc hk
          subst hc ; subst hk
          simp [catLookup, hmatch]
      | succ n =>
          have h0 : keywordsMatch k0 dU = false :=
            hearlier 0 (Nat.succ_pos n) c0 k0 rfl
          simp only [catLookup, h0, Bool.false_eq_true, if_false]
          exact ih n cat kws hget hmatch
            (fun j hj cat' kws' hg =>
              hearlier (j + 1) (Nat.succ_lt_succ hj) cat' kws' hg)

/-- The scan falls through to the sentinel when nothing matches. -/
theorem catLookup_none (dU : String) :
    ∀ mappings : List (String × List String),
      (∀ p ∈ mappings, keywordsMatch p.2 dU = false) →
      catLookup dU mappings = "uncategorized" := by
  intro mappings
  induction mappings with
  | nil => intro _ ; rfl
  | cons p rest ih =>
      obtain ⟨c0, k0⟩ := p
      intro h
      have h0 : keywordsMatch k0 dU = false := h (c0, k0) (List.mem_cons_self _ _)
      simp only [catLookup, h0, Bool.false_eq_true, if_false]
      exact ih (fun q hq => h q (List.mem_cons_of_mem _ hq))

/-- C2: `categorize_transaction` uppercases the description and scans the
mapping in declaration order: it returns the category at position `i` as soon
as one of its keywords (uppercased) occurs as a substring of the uppercased
description while no earlier category has a matching keyword; and when no
category at all matches it returns the sentinel `"uncategorized"`. -/
theorem classify_first_match :
    (∀ (description : String) (amount : ℚ)
       (mappings : List (String × List String)) (i : ℕ) (cat : String)
       (kws : List String),
       mappings.get? i = some (cat, kws) →
       (∃ kw ∈ kws, (pyUpper kw).data <:+: (pyUpper description).data) →
       (∀ j, j < i → ∀ cat' kws', mappings.get? j = some (cat', kws') →
         ∀ kw ∈ kws', ¬ (pyUpper kw).data <:+: (pyUpper description).data) →
       categorize_transaction description amount mappings = cat) ∧
    (∀ (description : String) (amount : ℚ)
       (mappings : List (String × List String)),
       (∀ p ∈ mappings, ∀ kw ∈ p.2,
         ¬ (pyUpper kw).data <:+: (pyUpper description).data) →
       categorize_transaction description amount mappings = "uncategorized") := by
  constructor
  · intro description amount mappings i cat kws hget hmatch hearlier
    exact catLookup_first (pyUpper description) mappings i cat kws hget
      ((keywordsMatch_iff kws (pyUpper description)).mpr hmatch)
      (fun j hj cat' kws' hg =>
        (keywordsMatch_eq_false_iff kws' (pyUpper description)).mpr
          (hearlier j hj cat' kws' hg))
  · intro description amount mappings h
    exact catLookup_none (pyUpper description) mappings
      (fun p hp =>
        (keywordsMatch_eq_false_iff p.2 (pyUpper description)).mpr (h p hp))

/-- C2 witness: `"LIDL HELSINKI"` matches the first category `food` of the
default mapping, and `"random stuff"` matches nothing. -/
theorem classify_first_match_witness :
    categorize_transaction "LIDL HELSINKI" 0 DEFAULT_CATEGORY_MAPPINGS =
      "food" ∧
    categorize_transaction "random stuff" 0 DEFAULT_CATEGORY_MAPPINGS =
      "uncategorized" := by
  constructor
  · refine classify_first_match.1 "LIDL HELSINKI" 0 DEFAULT_CATEGORY_MAPPINGS
      0 "food"
      ["LIDL", "K-MARKET", "K MARKET", "S-MARKET", "ALEPA", "PRISMA",
       "CITYMARKET", "SALE", "TOKMANNI", "RUOHONJUURI"] rfl ?_ ?_
    · exact (keywordsMatch_iff _ _).mp (by decide)
    · intro j hj
      exact absurd hj (Nat.not_lt_zero j)
  · refine classify_first_match.2 "random stuff" 0 DEFAULT_CATEGORY_MAPPINGS ?_
    have hall : ∀ p ∈ DEFAULT_CATEGORY_MAPPINGS,
        keywordsMatch p.2 (pyUpper "random stuff") = false := by decide
    exact fun p hp =>
      (keywordsMatch_eq_false_iff p.2 (pyUpper "random stuff")).mp (hall p hp)

/-! ## Override lemmas (C7 infrastructure) -/

/-- Override at the head of the frame. -/
theorem override_cons_zero (r : Row) (rest : List Row) (cat : String) :
    override_category (r :: rest) 0 cat =
      { r with category := cat, auto_categorized := false } :: rest := rfl

/-- Override deeper in the frame skips the head. -/
theorem override_cons_succ (r : Row) (rest : List Row) (i : ℕ)
    (cat : String) :
    override_category (r :: rest) (i + 1) cat =
      r :: override_category rest i cat := rfl

/-- C7: for a valid index, `override_category` rewrites exactly that record
to the requested category with `auto_categorized = false`, whatever its prior
contents, leaves every other position unchanged, and is idempotent. -/
theorem override_forces_and_idempotent :
    ∀ (df : List Row) (i : ℕ) (cat : String) (row : Row),
      df.get? i = some row →
      (override_category df i cat).get? i =
        some ⟨row.recipient_name, row.amount, cat, false⟩ ∧
      (∀ j, j ≠ i → (override_category df i cat).get? j = df.get? j) ∧
      override_category (override_category df i cat) i cat =
        override_category df i cat := by
  intro df
  induction df with
  | nil => intro i cat row h ; simp at h
  | cons r rest ih =>
      intro i cat row h
      cases i with
      | zero =>
          simp only [List.get?] at h
          injection h with hr
          subst hr
          refine ⟨rfl, ?_, rfl⟩
          intro j hj
          cases j with
          | zero => exact absurd rfl hj
          | succ m => rfl
      | succ n =>
          obtain ⟨h1, h2, h3⟩ := ih n cat row h
          rw [override_cons_succ]
          refine ⟨h1, ?_, ?_⟩
          · intro j hj
            cases j with
            | zero => rfl
            | succ m =>
                exact h2 m (fun e => hj (congrArg Nat.succ e))
          · rw [override_cons_succ, h3]

/-- C7 witness: overriding the second record of a concrete frame. -/
theorem override_forces_and_idempotent_witness :
    ([⟨"LIDL", 5, "food", true⟩, ⟨"NETFLIX", 10, "entertainment", true⟩] :
        List Row).get? 1 = some ⟨"NETFLIX", 10, "entertainment", true⟩ ∧
    (override_category
        [⟨"LIDL", 5, "food", true⟩, ⟨"NETFLIX", 10, "entertainment", true⟩]
        1 "streaming").get? 1 = some ⟨"NETFLIX", 10, "streaming", false⟩ ∧
    override_category
        (override_category
          [⟨"LIDL", 5, "food", true⟩, ⟨"NETFLIX", 10, "entertainment", true⟩]
          1 "streaming") 1 "streaming" =
      override_category
        [⟨"LIDL", 5, "food", true⟩, ⟨"NETFLIX", 10, "entertainment", true⟩]
        1 "streaming" :=
  have h := override_forces_and_idempotent
    [⟨"LIDL", 5, "food", true⟩, ⟨"NETFLIX", 10, "entertainment", true⟩]
    1 "streaming" ⟨"NETFLIX", 10, "entertainment", true⟩ rfl
  ⟨rfl, h.1, h.2.2⟩

/-! ## C6: classification passes and overridden records -/

/-- C6 counterexample: a record manually overridden to `"streaming"` with
`auto_categorized = false` is re-visited by a subsequent classification pass,
which replaces its category (here with `"entertainment"`) and resets
`auto_categorized` to `true`. -/
theorem classification_revisits_override :
    ((categorize_transactions [⟨"NETFLIX", 10, "streaming", false⟩]
        DEFAULT_CATEGORY_MAPPINGS).get? 0).map Row.category ≠
      some "streaming" ∧
    ((categorize_transactions [⟨"NETFLIX", 10, "streaming", false⟩]
        DEFAULT_CATEGORY_MAPPINGS).get? 0).map Row.auto_categorized ≠
      some false := by
  exact ⟨by decide, by decide⟩

/-- C6 (amended): a subsequent classification pass re-visits every record,
including overridden ones — it recomputes each record's category from its
description and resets `auto_categorized` to `true`; the overridden category
and the `false` flag do not survive the pass. -/
theorem classification_recategorizes_all (df : List Row)
    (mappings : List (String × List String)) (i : ℕ) (row : Row)
    (h : df.get? i = some row) :
    (categorize_transactions df mappings).get? i =
      some ⟨row.recipient_name, row.amount,
        categorize_transaction row.recipient_name 0 mappings, true⟩ := by
  unfold categorize_transactions assignAutoColumn assignCategoryColumn
  rw [List.get?_eq_getElem?, List.getElem?_map, List.getElem?_map,
    ← List.get?_eq_getElem?, h]
  rfl

/-- C6 amended-claim witness: the overridden NETFLIX record after one more
classification pass. -/
theorem classification_recategorizes_all_witness :
    (categorize_transactions [⟨"NETFLIX", 10, "streaming", false⟩]
        DEFAULT_CATEGORY_MAPPINGS).get? 0 =
      some ⟨"NETFLIX", 10,
        categorize_transaction "NETFLIX" 0 DEFAULT_CATEGORY_MAPPINGS, true⟩ :=
  classification_recategorizes_all [⟨"NETFLIX", 10, "streaming", false⟩]
    DEFAULT_CATEGORY_MAPPINGS 0 ⟨"NETFLIX", 10, "streaming", false⟩ rfl

/-! ## C9: personal expenses never influence settlement -/

/-- The settlement report only reads names, incomes, the shared pool and the
shared payments: two ledgers agreeing on those produce the same report. -/
theorem generate_congr (c c' : Contribution)
    (hna : c'.person_a.name = c.person_a.name)
    (hnb : c'.person_b.name = c.person_b.name)
    (hia : c'.person_a.monthly_income = c.person_a.monthly_income)
    (hib : c'.person_b.monthly_income = c.person_b.monthly_income)
    (hpa : c'.person_a.shared_expenses_paid = c.person_a.shared_expenses_paid)
    (hpb : c'.person_b.shared_expenses_paid = c.person_b.shared_expenses_paid)
    (hsh : c'.shared_expenses = c.shared_expenses) :
    BalanceSheet.generate_monthly_balance c' =
      BalanceSheet.generate_monthly_balance c := by
  unfold BalanceSheet.generate_monthly_balance
    Contribution.get_person_shared_paid
    FairShareCalculator.calculate_fair_shares
    FairShareCalculator.calculate_income_ratio
    Contribution.get_total_shared_expenses
  rw [hna, hnb, hia, hib, hpa, hpb, hsh]

/-- C9: a successful personal (`is_shared = false`) `add_expense` call only
touches the payer's `personal_expenses`: the shared pool, both persons'
shared payments, the shared total and the whole settlement report are exactly
as without the call. -/
theorem personal_expense_frame (c : Contribution) (category : String)
    (amount : ℚ) (paid_by : String) (c' : Contribution)
    (h : c.add_expense category amount paid_by false = .ok c') :
    c'.shared_expenses = c.shared_expenses ∧
    c'.person_a.shared_expenses_paid = c.person_a.shared_expenses_paid ∧
    c'.person_b.shared_expenses_paid = c.person_b.shared_expenses_paid ∧
    c'.get_total_shared_expenses = c.get_total_shared_expenses ∧
    BalanceSheet.generate_monthly_balance c' =
      BalanceSheet.generate_monthly_balance c ∧
    (paid_by = c.person_a.name →
      c'.person_b = c.person_b ∧
      c'.person_a.personal_expenses =
        addAmount c.person_a.personal_expenses category amount) ∧
    (paid_by ≠ c.person_a.name →
      c'.person_a = c.person_a ∧
      c'.person_b.personal_expenses =
        addAmount c.person_b.personal_expenses category amount) := by
  by_cases ha : paid_by = c.person_a.name
  · rw [add_expense_a_personal c category amount paid_by ha] at h
    injection h with h
    subst h
    exact ⟨rfl, rfl, rfl, rfl,
      generate_congr _ _ rfl rfl rfl rfl rfl rfl rfl,
      fun _ => ⟨rfl, rfl⟩, fun hc => absurd ha hc⟩
  · by_cases hb : paid_by = c.person_b.name
    · rw [add_expense_b_personal c category amount paid_by ha hb] at h
      injection h with h
      subst h
      exact ⟨rfl, rfl, rfl, rfl,
        generate_congr _ _ rfl rfl rfl rfl rfl rfl rfl,
        fun hc => absurd hc ha, fun _ => ⟨rfl, rfl⟩⟩
    · rw [add_expense_unknown c category amount paid_by false ha hb] at h
      exact absurd h (by simp)

/-- C9 witness: Alice's personal gym expense leaves the shared state and the
report of a concrete ledger untouched. -/
theorem personal_expense_frame_witness :
    (freshLedger "Alice" 3000 "Bob" 2000).add_expense "gym" 50 "Alice" false =
      .ok ⟨⟨"Alice", 3000, addAmount [] "gym" 50, []⟩,
           ⟨"Bob", 2000, [], []⟩, [], 0⟩ ∧
    (⟨⟨"Alice", 3000, addAmount [] "gym" 50, []⟩,
      ⟨"Bob", 2000, [], []⟩, [], 0⟩ :
        Contribution).get_total_shared_expenses =
      (freshLedger "Alice" 3000 "Bob" 2000).get_total_shared_expenses ∧
    BalanceSheet.generate_monthly_balance
        ⟨⟨"Alice", 3000, addAmount [] "gym" 50, []⟩,
         ⟨"Bob", 2000, [], []⟩, [], 0⟩ =
      BalanceSheet.generate_monthly_balance
        (freshLedger "Alice" 3000 "Bob" 2000) :=
  have h : (freshLedger "Alice" 3000 "Bob" 2000).add_expense "gym" 50 "Alice"
      false = .ok ⟨⟨"Alice", 3000, addAmount [] "gym" 50, []⟩,
        ⟨"Bob", 2000, [], []⟩, [], 0⟩ := rfl
  have hf := personal_expense_frame (freshLedger "Alice" 3000 "Bob" 2000)
    "gym" 50 "Alice" _ h
  ⟨h, hf.2.2.2.1, hf.2.2.2.2.1⟩

/-! ## Heap lemmas (C10 infrastructure) -/

theorem getD_append_lt {α : Type} (l l' : List α) (i : ℕ) (d : α)
    (h : i < l.length) : (l ++ l').getD i d = l.getD i d := by
  induction l generalizing i with
  | nil => exact absurd h (Nat.not_lt_zero i)
  | cons x rest ih =>
      cases i with
      | zero => rfl
      | succ n => exact ih n (Nat.lt_of_succ_lt_succ h)

theorem getD_append_self {α : Type} (l : List α) (x d : α) :
    (l ++ [x]).getD l.length d = x := by
  induction l with
  | nil => rfl
  | cons y rest ih => exact ih

theorem getD_set_self {α : Type} (l : List α) (i : ℕ) (x d : α)
    (h : i < l.length) : (l.set i x).getD i d = x := by
  induction l generalizing i with
  | nil => exact absurd h (Nat.not_lt_zero i)
  | cons y rest ih =>
      cases i with
      | zero => rfl
      | succ n => exact ih n (Nat.lt_of_succ_lt_succ h)

theorem getD_set_ne {α : Type} (l : List α) (i j : ℕ) (x d : α)
    (h : i ≠ j) : (l.set i x).getD j d = l.getD j d := by
  induction l generalizing i j with
  | nil => rfl
  | cons y rest ih =>
      cases i with
      | zero =>
          cases j with
          | zero => exact absurd rfl h
          | succ m => rfl
      | succ n =>
          cases j with
          | zero => rfl
          | succ m => exact ih n m (fun e => h (congrArg Nat.succ e))

/-- C10: at the heap level, `categorize_transactions` and `override_category`
mutate only a freshly allocated copy: the DataFrame behind the argument
reference is unchanged, the returned reference is a different object, and the
new object holds exactly the pure result of the operation. -/
theorem df_operations_preserve_input (heap : DFHeap) (ref : ℕ)
    (mappings : List (String × List String)) (index : ℕ) (cat : String)
    (h : ref < heap.length) :
    ((categorize_transactions_heap heap ref mappings).1.getD ref [] =
        heap.getD ref [] ∧
     (categorize_transactions_heap heap ref mappings).2 ≠ ref ∧
     (categorize_transactions_heap heap ref mappings).1.getD
         (categorize_transactions_heap heap ref mappings).2 [] =
       categorize_transactions (heap.getD ref []) mappings) ∧
    ((override_category_heap heap ref index cat).1.getD ref [] =
        heap.getD ref [] ∧
     (override_category_heap heap ref index cat).2 ≠ ref ∧
     (override_category_heap heap ref index cat).1.getD
         (override_category_heap heap ref index cat).2 [] =
       override_category (heap.getD ref []) index cat) := by
  have hne : heap.length ≠ ref := fun e => absurd (e ▸ h) (lt_irrefl _)
  have hlen1 : heap.length < (heap ++ [heap.getD ref []]).length := by
    rw [List.length_append]
    simp
  constructor
  · unfold categorize_transactions_heap
    refine ⟨?_, hne, ?_⟩
    · rw [getD_set_ne _ _ _ _ _ hne, getD_set_ne _ _ _ _ _ hne,
        getD_append_lt _ _ _ _ h]
    · rw [getD_set_self _ _ _ _ (by simp), getD_set_self _ _ _ _ hlen1,
        getD_append_self]
      rfl
  · unfold override_category_heap
    refine ⟨?_, hne, ?_⟩
    · rw [getD_set_ne _ _ _ _ _ hne, getD_set_ne _ _ _ _ _ hne,
        getD_append_lt _ _ _ _ h]
    · rw [getD_set_self _ _ _ _ (by simp), getD_set_self _ _ _ _ hlen1,
        getD_append_self]
      rfl

/-- C10 witness: on a one-DataFrame heap both operations leave the original
object intact and return a fresh reference with the pure result. -/
theorem df_operations_preserve_input_witness :
    (0 : ℕ) < ([[⟨"NETFLIX", 10, "streaming", false⟩]] : DFHeap).length ∧
    (categorize_transactions_heap [[⟨"NETFLIX", 10, "streaming", false⟩]] 0
        DEFAULT_CATEGORY_MAPPINGS).1.getD 0 [] =
      [⟨"NETFLIX", 10, "streaming", false⟩] ∧
    (override_category_heap [[⟨"NETFLIX", 10, "streaming", false⟩]] 0 0
        "food").1.getD 0 [] = [⟨"NETFLIX", 10, "streaming", false⟩] :=
  have hw := df_operations_preserve_input
    [[⟨"NETFLIX", 10, "streaming", false⟩]] 0 DEFAULT_CATEGORY_MAPPINGS 0
    "food" (by decide)
  ⟨by decide, hw.1.1, hw.2.1⟩

/-- The settlement scenario — incomes 3000 and 2000, shared rent 1000 paid
by Alice, shared utilities 200 paid by Bob — fully computed: total 1200,
fair shares 720 and 480, actual payments 1000 and 200, balances -280 and
280, and the summary rendered with the source's mojibake currency marker
(U+00E2 U+201A U+00AC). -/
theorem generate_scenario_eq :
    BalanceSheet.generate_monthly_balance
        ((freshLedger "Alice" 3000 "Bob" 2000).runOps
          [⟨"rent", 1000, "Alice", true⟩, ⟨"utilities", 200, "Bob", true⟩]) =
      .ok ⟨1200, ⟨"Alice", 720, 1000, -280⟩, ⟨"Bob", 480, 200, 280⟩,
        "Bob owes Alice â‚¬280.00"⟩ := by
  simp only [Contribution.runOps, Contribution.runOp,
    Contribution.add_expense, freshLedger, Person.mk0, List.foldl, addAmount,
    dictGet, dictSet, dictSum, BalanceSheet.generate_monthly_balance,
    Contribution.get_person_shared_paid,
    Contribution.get_total_shared_expenses,
    FairShareCalculator.calculate_fair_shares,
    FairShareCalculator.calculate_income_ratio,
    BalanceSheet.generate_summary, formatAmount2, List.map, List.sum,
    String.reduceEq, reduceIte]
  norm_num [round_eq]
  rfl

/-- C8 counterexample: in that scenario the generated summary is not the
claimed `"Bob owes Alice €280.00"` containing the genuine euro sign U+20AC —
the source f-string (and the repository's own test) carry the three-byte
mojibake marker instead. -/
theorem settlement_scenario_euro_mismatch :
    (BalanceSheet.generate_monthly_balance
        ((freshLedger "Alice" 3000 "Bob" 2000).runOps
          [⟨"rent", 1000, "Alice", true⟩,
           ⟨"utilities", 200, "Bob", true⟩])).toOption.map Report.summary ≠
      some "Bob owes Alice €280.00" := by
  rw [generate_scenario_eq]
  decide

/-- C8 (amended): the concrete settlement scenario yields total 1200, fair
shares 720 and 480, actual payments 1000 and 200, balances -280 and 280, and
the summary string `"Bob owes Alice â‚¬280.00"` — the amount prefixed by the
source's literal three-character mojibake currency marker U+00E2 U+201A
U+00AC rather than a genuine euro sign. -/
theorem settlement_scenario_actual :
    BalanceSheet.generate_monthly_balance
        ((freshLedger "Alice" 3000 "Bob" 2000).runOps
          [⟨"rent", 1000, "Alice", true⟩, ⟨"utilities", 200, "Bob", true⟩]) =
      .ok ⟨1200, ⟨"Alice", 720, 1000, -280⟩, ⟨"Bob", 480, 200, 280⟩,
        "Bob owes Alice â‚¬280.00"⟩ :=
  generate_scenario_eq

end Pennywise
